import Mathlib

/-!
Shallow embedding of the dual-mode character motion controller from
`src/character.js` and the physics wrapper from `src/physics.js`.

Numeric modelling: JavaScript doubles are modelled as exact rationals, with
decimal literals read at face value (idealised real arithmetic).  `Math.PI`
is a named constant.  The transcendental functions `Math.atan2`, `Math.sin`,
`Math.cos` produce irrational values in general, so they enter the model as
an abstract parameter bundle (`Trig`); theorems quantify over every such
bundle, and concrete witnesses use `atan2Axis`, which agrees with the IEEE
double `Math.atan2` exactly on the axis-aligned inputs it is applied to.
-/

namespace PhysChar

/-- Value standing for the JavaScript constant `Math.PI` (the double nearest
to the real number pi). -/
def mathPI : ℚ := 884279719003555 / 281474976710656

/-- Three-component vector of `character.js` / `physics.js` objects
with fields x, y, z. -/
structure Vec3 where
  x : ℚ
  y : ℚ
  z : ℚ
deriving DecidableEq

/-- Two-component vector with fields x, z, as used for input movement
directions and for the facing direction. -/
structure Vec2 where
  x : ℚ
  z : ℚ
deriving DecidableEq

/-- Character options, `character.js` lines 14-21. -/
structure Options where
  moveSpeed : ℚ
  jumpForce : ℚ
  jumpCooldown : ℚ
  rotationSpeed : ℚ
  airControl : ℚ
deriving DecidableEq

/-- The default options of the constructor: moveSpeed 5.0, jumpForce 10.0,
jumpCooldown 0.3, rotationSpeed 5.0, airControl 0.3. -/
def defaultOptions : Options :=
  { moveSpeed := 5, jumpForce := 10, jumpCooldown := 3/10,
    rotationSpeed := 5, airControl := 3/10 }

/-- Model of `this.state` of the controller, `character.js` lines 24-33.  The unused
x and z components of `rotation` are always 0 in the source and are omitted;
`rotationY` is `state.rotation.y`. -/
structure CharState where
  isGrounded : Bool
  isJumping : Bool
  jumpCooldownTimer : ℚ
  velocity : Vec3
  position : Vec3
  rotationY : ℚ
  direction : Vec2
  movementDirection : Vec2
deriving DecidableEq

/-- The initial character state built by the constructor. -/
def initialState : CharState :=
  { isGrounded := false, isJumping := false, jumpCooldownTimer := 0,
    velocity := ⟨0, 0, 0⟩, position := ⟨0, 1, 0⟩, rotationY := 0,
    direction := ⟨0, -1⟩, movementDirection := ⟨0, 0⟩ }

/-- Snapshot of the input handler for one frame: `input.getMovementDirection`
returns `move`, `input.isJumping` returns `jump` (see the InputHandler class,
which reads key state and never fails). -/
structure InputState where
  move : Vec2
  jump : Bool
deriving DecidableEq

/-- Abstract interpretation of the transcendental JavaScript functions used
by the controller: `Math.atan2`, `Math.sin`, `Math.cos`.  Theorems hold for
every interpretation; witnesses pick a concrete one that matches the doubles
on the inputs actually used. -/
structure Trig where
  atan2 : ℚ → ℚ → ℚ
  sin : ℚ → ℚ
  cos : ℚ → ℚ

/-- Exact values of the IEEE double `Math.atan2` on axis-aligned inputs:
atan2(0, z) = 0 for z ≥ 0, atan2(0, z) = pi for z < 0,
atan2(x, 0) = ±pi/2 for x ≠ 0 (all exact as doubles, with `mathPI`
standing for the double pi).  Off-axis values are irrational; this function
returns 0 there and is never applied to such inputs in a concrete theorem. -/
def atan2Axis (x z : ℚ) : ℚ :=
  if x = 0 then (if 0 ≤ z then 0 else mathPI)
  else if z = 0 then (if 0 < x then mathPI / 2 else -(mathPI / 2))
  else 0

/-- Concrete trig bundle for witnesses and counterexamples.  Only `atan2` is
ever relevant to the orientation angle; `sin`/`cos` feed only the facing
direction vector, which the concrete statements below do not inspect. -/
def axisTrig : Trig := { atan2 := atan2Axis, sin := fun _ => 0, cos := fun _ => 0 }

/-- The loop `while (currentAngle > Math.PI) currentAngle -= Math.PI * 2`
of `character.js` line 138. -/
def wrapDown (a : ℚ) : ℚ :=
  if h : mathPI < a then wrapDown (a - 2 * mathPI) else a
termination_by (⌈(a - mathPI) / (2 * mathPI)⌉).toNat
decreasing_by
  have hpi : (0 : ℚ) < 2 * mathPI := by norm_num [mathPI]
  have h1 : (0 : ℚ) < (a - mathPI) / (2 * mathPI) :=
    div_pos (by linarith) hpi
  have h2 : (1 : ℤ) ≤ ⌈(a - mathPI) / (2 * mathPI)⌉ := by
    exact Int.ceil_pos.mpr h1
  have h3 : (a - 2 * mathPI - mathPI) / (2 * mathPI)
      = (a - mathPI) / (2 * mathPI) - 1 := by
    field_simp
    ring
  have h4 : ⌈(a - 2 * mathPI - mathPI) / (2 * mathPI)⌉
      = ⌈(a - mathPI) / (2 * mathPI)⌉ - 1 := by
    rw [h3, Int.ceil_sub_one]
  omega

/-- The loop `while (currentAngle < -Math.PI) currentAngle += Math.PI * 2`
of `character.js` line 139. -/
def wrapUp (a : ℚ) : ℚ :=
  if h : a < -mathPI then wrapUp (a + 2 * mathPI) else a
termination_by (⌈(-mathPI - a) / (2 * mathPI)⌉).toNat
decreasing_by
  have hpi : (0 : ℚ) < 2 * mathPI := by norm_num [mathPI]
  have h1 : (0 : ℚ) < (-mathPI - a) / (2 * mathPI) :=
    div_pos (by linarith) hpi
  have h2 : (1 : ℤ) ≤ ⌈(-mathPI - a) / (2 * mathPI)⌉ := by
    exact Int.ceil_pos.mpr h1
  have h3 : (-mathPI - (a + 2 * mathPI)) / (2 * mathPI)
      = (-mathPI - a) / (2 * mathPI) - 1 := by
    field_simp
    ring
  have h4 : ⌈(-mathPI - (a + 2 * mathPI)) / (2 * mathPI)⌉
      = ⌈(-mathPI - a) / (2 * mathPI)⌉ - 1 := by
    rw [h3, Int.ceil_sub_one]
  omega

/-- Normalisation of the local copy of the current angle,
`character.js` lines 137-139 (the two sequential while loops). -/
def normalizeAngle (a : ℚ) : ℚ := wrapUp (wrapDown a)

/-- Shortest-path angular difference, `character.js` lines 141-144:
`angleDiff = targetAngle - currentAngle`, then the two sequential ifs
that wrap it by ±2*pi. -/
def wrappedDiff (targetAngle currentAngle : ℚ) : ℚ :=
  let d0 := targetAngle - currentAngle
  let d1 := if mathPI < d0 then d0 - 2 * mathPI else d0
  if d1 < -mathPI then d1 + 2 * mathPI else d1

/-- Model of `CharacterController.updateRotation`, `character.js` lines 128-156.
Note the source normalises a local copy of the angle but adds the rotation
amount to the raw `state.rotation.y`. -/
def updateRotation (opts : Options) (tg : Trig) (s : CharState)
    (inputDirection : Vec2) (dt : ℚ) : CharState :=
  if inputDirection.x ≠ 0 ∨ inputDirection.z ≠ 0 then
    let targetAngle := tg.atan2 inputDirection.x inputDirection.z
    let currentAngle := normalizeAngle s.rotationY
    let angleDiff := wrappedDiff targetAngle currentAngle
    let rotationAmount := angleDiff * opts.rotationSpeed * dt
    let newY := s.rotationY + rotationAmount
    { s with rotationY := newY, direction := ⟨tg.sin newY, tg.cos newY⟩ }
  else s

/-- Movement-direction recording and rotation update at the head of the
fallback path, `character.js` lines 164-169. -/
def fallbackRotate (opts : Options) (tg : Trig) (s : CharState)
    (inp : InputState) (dt : ℚ) : CharState :=
  updateRotation opts tg { s with movementDirection := inp.move } inp.move dt

/-- Gravity block of the fallback path, `character.js` lines 171-181:
while airborne `velocity.y -= 9.81 * dt`; while grounded `velocity.y = 0`
and a landing clears `isJumping`. -/
def fallbackGravity (s : CharState) (dt : ℚ) : CharState :=
  if !s.isGrounded then
    { s with velocity := { s.velocity with y := s.velocity.y - 981/100 * dt } }
  else
    let s1 := { s with velocity := { s.velocity with y := 0 } }
    if s1.isJumping then { s1 with isJumping := false } else s1

/-- Cooldown decrement shared by both modes, `character.js` lines 88-90 and
184-186: `if (timer > 0) timer -= dt` (note: no clamp at zero). -/
def tickCooldown (s : CharState) (dt : ℚ) : CharState :=
  if 0 < s.jumpCooldownTimer then
    { s with jumpCooldownTimer := s.jumpCooldownTimer - dt }
  else s

/-- Jump block of the fallback path, `character.js` lines 188-194. -/
def fallbackJump (opts : Options) (s : CharState) (inp : InputState) : CharState :=
  if inp.jump ∧ s.isGrounded ∧ s.jumpCooldownTimer ≤ 0 then
    { s with velocity := { s.velocity with y := opts.jumpForce * (1/10) },
             isJumping := true, isGrounded := false,
             jumpCooldownTimer := opts.jumpCooldown }
  else s

/-- Horizontal-velocity block of the fallback path, `character.js`
lines 196-216: forward/strafe composition on input, geometric decay with a
snap-to-zero threshold otherwise.  Only x and z are written. -/
def fallbackHorizontal (opts : Options) (s : CharState) (inp : InputState) : CharState :=
  if inp.move.x ≠ 0 ∨ inp.move.z ≠ 0 then
    let moveSpeed := opts.moveSpeed * (if s.isGrounded then 1 else opts.airControl)
    let vx := s.direction.x * inp.move.z * moveSpeed
        + -s.direction.z * inp.move.x * moveSpeed
    let vz := s.direction.z * inp.move.z * moveSpeed
        + s.direction.x * inp.move.x * moveSpeed
    { s with velocity := ⟨vx, s.velocity.y, vz⟩ }
  else
    let vx0 := s.velocity.x * (9/10)
    let vz0 := s.velocity.z * (9/10)
    let vx := if |vx0| < 1/100 then 0 else vx0
    let vz := if |vz0| < 1/100 then 0 else vz0
    { s with velocity := ⟨vx, s.velocity.y, vz⟩ }

/-- Euler position integration, `character.js` lines 218-221. -/
def fallbackIntegrate (s : CharState) (dt : ℚ) : CharState :=
  { s with position := ⟨s.position.x + s.velocity.x * dt,
                        s.position.y + s.velocity.y * dt,
                        s.position.z + s.velocity.z * dt⟩ }

/-- Ground collision clamp, `character.js` lines 223-229: below height 1 the
character is clamped to 1 and grounded, otherwise it is airborne. -/
def fallbackClamp (s : CharState) : CharState :=
  if s.position.y < 1 then
    { s with position := { s.position with y := 1 }, isGrounded := true }
  else
    { s with isGrounded := false }

/-- Model of `CharacterController.updateFallbackMovement`, `character.js`
lines 163-230, as the sequential composition of its blocks. -/
def updateFallbackMovement (opts : Options) (tg : Trig) (s : CharState)
    (inp : InputState) (dt : ℚ) : CharState :=
  fallbackClamp
    (fallbackIntegrate
      (fallbackHorizontal opts
        (fallbackJump opts
          (tickCooldown
            (fallbackGravity (fallbackRotate opts tg s inp dt) dt) dt)
          inp)
        inp)
      dt)

/-- One frame of raw physics-engine (Rapier) behaviour, as seen through the
calls the code makes on the body and world objects.  `none` models the call
throwing.  `probeTranslation` and `castRay` are the `body.translation()` and
`world.castRay(...)` calls made inside `PhysicsWorld.isGrounded`;
`linvel` is the direct `body.linvel()` call at `character.js` line 93;
`posTranslation` is the `body.translation()` call inside
`PhysicsWorld.getBodyPosition`; the two Bool flags record whether
`body.setLinvel` / `body.applyImpulse` throw (their wrappers catch and
discard the error, so they influence nothing). -/
structure EngineFrame where
  probeTranslation : Option Vec3
  castRay : Option Bool
  linvel : Option Vec3
  posTranslation : Option Vec3
  setLinvelFails : Bool
  applyImpulseFails : Bool
deriving DecidableEq

/-- Model of `PhysicsWorld.isGrounded`, `physics.js` lines 144-175: false when the
world is uninitialised or the body is absent; otherwise the ray-cast hit
test, except that any error thrown by `body.translation()` or
`world.castRay` is caught and the function returns `true`
("assume grounded in case of error"). -/
def isGroundedW (bodyPresent : Bool) (f : EngineFrame) : Bool :=
  if !bodyPresent then false
  else
    match f.probeTranslation with
    | none => true
    | some _ =>
      match f.castRay with
      | none => true
      | some hit => hit

/-- Model of `PhysicsWorld.getBodyPosition`, `physics.js` lines 197-207: `(0,0,0)`
for an absent body, otherwise the body translation, with any thrown error
caught and replaced by `(0,0,0)`. -/
def getBodyPositionW (bodyPresent : Bool) (f : EngineFrame) : Vec3 :=
  if !bodyPresent then ⟨0, 0, 0⟩
  else
    match f.posTranslation with
    | none => ⟨0, 0, 0⟩
    | some p => p

/-- The target velocity computed by `CharacterController.handleMovement`,
`character.js` lines 240-254: starts as `(0, velocity.y, 0)` and receives
the forward/strafe composition when the input is non-zero.  This value is
passed to `PhysicsWorld.setBodyVelocity`, which mutates no controller
state. -/
def movementTargetVelocity (opts : Options) (s : CharState) (move : Vec2) : Vec3 :=
  let moveSpeed := opts.moveSpeed * (if s.isGrounded then 1 else opts.airControl)
  if move.x ≠ 0 ∨ move.z ≠ 0 then
    ⟨s.direction.x * move.z * moveSpeed + -s.direction.z * move.x * moveSpeed,
     s.velocity.y,
     s.direction.z * move.z * moveSpeed + s.direction.x * move.x * moveSpeed⟩
  else
    ⟨0, s.velocity.y, 0⟩

/-- The state effect of `CharacterController.handleJump`, `character.js`
lines 269-290.  `PhysicsWorld.applyImpulse` catches its own errors, and the
input handler never throws, so the catch block of `handleJump` is
unreachable and the body always runs to completion. -/
def handleJumpStep (opts : Options) (s : CharState) (inp : InputState) : CharState :=
  let s1 :=
    if inp.jump ∧ s.isGrounded ∧ s.jumpCooldownTimer ≤ 0 then
      { s with isJumping := true, isGrounded := false,
               jumpCooldownTimer := opts.jumpCooldown }
    else s
  if s1.isGrounded ∧ s1.isJumping then { s1 with isJumping := false } else s1

/-- The physics-mode state just before `handleMovement` runs,
`character.js` lines 85-105: grounded probe, cooldown tick, velocity read
(`v` is the value returned by `body.linvel()`), movement-direction record,
rotation update. -/
def physicsPreMove (opts : Options) (tg : Trig) (bodyPresent : Bool)
    (s : CharState) (inp : InputState) (dt : ℚ) (f : EngineFrame)
    (v : Vec3) : CharState :=
  let s1 := { s with isGrounded := isGroundedW bodyPresent f }
  let s2 := tickCooldown s1 dt
  let s3 := { s2 with velocity := v }
  let s4 := { s3 with movementDirection := inp.move }
  updateRotation opts tg s4 inp.move dt

/-- Whole-controller state: the character state, the `usingFallback` flag,
and whether `this.character && this.character.body` is a valid body. -/
structure CtrlState where
  st : CharState
  usingFallback : Bool
  hasBody : Bool
deriving DecidableEq

/-- Model of `CharacterController.update`, `character.js` lines 70-121, for one frame
whose engine behaviour is `f`.  The only call in the try block that can
throw is the direct `body.linvel()` read (every `PhysicsWorld` method
catches its own errors); on that throw, the mutations already performed
(grounded probe, cooldown tick) persist and the catch block sets
`usingFallback` and reprocesses the frame through
`updateFallbackMovement`. -/
def update (opts : Options) (tg : Trig) (c : CtrlState) (inp : InputState)
    (dt : ℚ) (f : EngineFrame) : CtrlState :=
  if c.usingFallback then
    { c with st := updateFallbackMovement opts tg c.st inp dt }
  else if !c.hasBody then
    { c with usingFallback := true,
             st := updateFallbackMovement opts tg c.st inp dt }
  else
    let s1 := { c.st with isGrounded := isGroundedW c.hasBody f }
    let s2 := tickCooldown s1 dt
    match f.linvel with
    | none =>
      { c with usingFallback := true,
               st := updateFallbackMovement opts tg s2 inp dt }
    | some v =>
      let s5 := physicsPreMove opts tg c.hasBody c.st inp dt f v
      let s6 := handleJumpStep opts s5 inp
      { c with st := { s6 with position := getBodyPositionW c.hasBody f } }

/-- Model of `CharacterController.getPosition`, `character.js` lines 296-316: returns
the cached position in fallback mode, degrades on a missing body, and in
physics mode syncs the cached position with the engine-reported one
(`PhysicsWorld.getBodyPosition` never throws, so the catch block is
unreachable). -/
def getPosition (c : CtrlState) (f : EngineFrame) : CtrlState × Vec3 :=
  if c.usingFallback then (c, c.st.position)
  else if !c.hasBody then ({ c with usingFallback := true }, c.st.position)
  else
    let p := getBodyPositionW c.hasBody f
    ({ c with st := { c.st with position := p } }, p)

/-- One externally invokable operation on the controller. -/
inductive COp where
  | upd : InputState → ℚ → EngineFrame → COp
  | gpos : EngineFrame → COp
  | gstate : COp

/-- State effect of one operation: `update` and `getPosition` as above;
`getState` / `getRotation` / `getDirection` / `getMovementDirection` return
copies and mutate nothing. -/
def applyOp (opts : Options) (tg : Trig) (c : CtrlState) : COp → CtrlState
  | COp.upd inp dt f => update opts tg c inp dt f
  | COp.gpos f => (getPosition c f).1
  | COp.gstate => c


/-! ### Helper lemmas: angle normalisation and fields each block leaves
unchanged -/

lemma wrapDown_of_le {a : ℚ} (h : a ≤ mathPI) : wrapDown a = a := by
  unfold wrapDown
  rw [dif_neg (by linarith)]

lemma wrapUp_of_ge {a : ℚ} (h : -mathPI ≤ a) : wrapUp a = a := by
  unfold wrapUp
  rw [dif_neg (by linarith)]

lemma normalizeAngle_of_mem {a : ℚ} (h1 : -mathPI ≤ a) (h2 : a ≤ mathPI) :
    normalizeAngle a = a := by
  unfold normalizeAngle
  rw [wrapDown_of_le h2, wrapUp_of_ge h1]

@[simp] lemma updateRotation_isGrounded (opts : Options) (tg : Trig) (s : CharState)
    (m : Vec2) (dt : ℚ) : (updateRotation opts tg s m dt).isGrounded = s.isGrounded := by
  unfold updateRotation
  split <;> rfl

@[simp] lemma updateRotation_isJumping (opts : Options) (tg : Trig) (s : CharState)
    (m : Vec2) (dt : ℚ) : (updateRotation opts tg s m dt).isJumping = s.isJumping := by
  unfold updateRotation
  split <;> rfl

@[simp] lemma updateRotation_timer (opts : Options) (tg : Trig) (s : CharState)
    (m : Vec2) (dt : ℚ) :
    (updateRotation opts tg s m dt).jumpCooldownTimer = s.jumpCooldownTimer := by
  unfold updateRotation
  split <;> rfl

@[simp] lemma updateRotation_velocity (opts : Options) (tg : Trig) (s : CharState)
    (m : Vec2) (dt : ℚ) : (updateRotation opts tg s m dt).velocity = s.velocity := by
  unfold updateRotation
  split <;> rfl

@[simp] lemma updateRotation_position (opts : Options) (tg : Trig) (s : CharState)
    (m : Vec2) (dt : ℚ) : (updateRotation opts tg s m dt).position = s.position := by
  unfold updateRotation
  split <;> rfl

lemma updateRotation_zero (opts : Options) (tg : Trig) (s : CharState) (dt : ℚ) :
    updateRotation opts tg s ⟨0, 0⟩ dt = s := by
  unfold updateRotation
  rw [if_neg]
  push_neg
  exact ⟨rfl, rfl⟩

@[simp] lemma fallbackRotate_isGrounded (opts : Options) (tg : Trig) (s : CharState)
    (inp : InputState) (dt : ℚ) :
    (fallbackRotate opts tg s inp dt).isGrounded = s.isGrounded := by
  unfold fallbackRotate
  rw [updateRotation_isGrounded]

@[simp] lemma fallbackRotate_isJumping (opts : Options) (tg : Trig) (s : CharState)
    (inp : InputState) (dt : ℚ) :
    (fallbackRotate opts tg s inp dt).isJumping = s.isJumping := by
  unfold fallbackRotate
  rw [updateRotation_isJumping]

@[simp] lemma fallbackRotate_timer (opts : Options) (tg : Trig) (s : CharState)
    (inp : InputState) (dt : ℚ) :
    (fallbackRotate opts tg s inp dt).jumpCooldownTimer = s.jumpCooldownTimer := by
  unfold fallbackRotate
  rw [updateRotation_timer]

@[simp] lemma fallbackRotate_velocity (opts : Options) (tg : Trig) (s : CharState)
    (inp : InputState) (dt : ℚ) :
    (fallbackRotate opts tg s inp dt).velocity = s.velocity := by
  unfold fallbackRotate
  rw [updateRotation_velocity]

@[simp] lemma fallbackRotate_position (opts : Options) (tg : Trig) (s : CharState)
    (inp : InputState) (dt : ℚ) :
    (fallbackRotate opts tg s inp dt).position = s.position := by
  unfold fallbackRotate
  rw [updateRotation_position]

@[simp] lemma fallbackGravity_isGrounded (s : CharState) (dt : ℚ) :
    (fallbackGravity s dt).isGrounded = s.isGrounded := by
  unfold fallbackGravity
  split
  · rfl
  · dsimp only
    split <;> rfl

@[simp] lemma fallbackGravity_position (s : CharState) (dt : ℚ) :
    (fallbackGravity s dt).position = s.position := by
  unfold fallbackGravity
  split
  · rfl
  · dsimp only
    split <;> rfl

@[simp] lemma fallbackGravity_timer (s : CharState) (dt : ℚ) :
    (fallbackGravity s dt).jumpCooldownTimer = s.jumpCooldownTimer := by
  unfold fallbackGravity
  split
  · rfl
  · dsimp only
    split <;> rfl

@[simp] lemma fallbackGravity_rotationY (s : CharState) (dt : ℚ) :
    (fallbackGravity s dt).rotationY = s.rotationY := by
  unfold fallbackGravity
  split
  · rfl
  · dsimp only
    split <;> rfl

@[simp] lemma fallbackGravity_velX (s : CharState) (dt : ℚ) :
    (fallbackGravity s dt).velocity.x = s.velocity.x := by
  unfold fallbackGravity
  split
  · rfl
  · dsimp only
    split <;> rfl

@[simp] lemma fallbackGravity_velZ (s : CharState) (dt : ℚ) :
    (fallbackGravity s dt).velocity.z = s.velocity.z := by
  unfold fallbackGravity
  split
  · rfl
  · dsimp only
    split <;> rfl

lemma fallbackGravity_of_grounded {s : CharState} (h : s.isGrounded = true) (dt : ℚ) :
    fallbackGravity s dt
      = { s with velocity := { s.velocity with y := 0 }, isJumping := false } := by
  unfold fallbackGravity
  rw [h]
  simp only [Bool.not_true, Bool.false_eq_true, if_false]
  split
  · rfl
  · next hj =>
    simp only [Bool.not_eq_true] at hj
    rw [← hj]

@[simp] lemma tickCooldown_isGrounded (s : CharState) (dt : ℚ) :
    (tickCooldown s dt).isGrounded = s.isGrounded := by
  unfold tickCooldown
  split <;> rfl

@[simp] lemma tickCooldown_isJumping (s : CharState) (dt : ℚ) :
    (tickCooldown s dt).isJumping = s.isJumping := by
  unfold tickCooldown
  split <;> rfl

@[simp] lemma tickCooldown_velocity (s : CharState) (dt : ℚ) :
    (tickCooldown s dt).velocity = s.velocity := by
  unfold tickCooldown
  split <;> rfl

@[simp] lemma tickCooldown_position (s : CharState) (dt : ℚ) :
    (tickCooldown s dt).position = s.position := by
  unfold tickCooldown
  split <;> rfl

@[simp] lemma tickCooldown_rotationY (s : CharState) (dt : ℚ) :
    (tickCooldown s dt).rotationY = s.rotationY := by
  unfold tickCooldown
  split <;> rfl

lemma tickCooldown_timer (s : CharState) (dt : ℚ) :
    (tickCooldown s dt).jumpCooldownTimer
      = if 0 < s.jumpCooldownTimer then s.jumpCooldownTimer - dt
        else s.jumpCooldownTimer := by
  unfold tickCooldown
  split <;> simp_all

lemma tickCooldown_of_nonpos {s : CharState} (h : s.jumpCooldownTimer ≤ 0) (dt : ℚ) :
    tickCooldown s dt = s := by
  unfold tickCooldown
  rw [if_neg (not_lt.mpr h)]

@[simp] lemma fallbackJump_position (opts : Options) (s : CharState) (inp : InputState) :
    (fallbackJump opts s inp).position = s.position := by
  unfold fallbackJump
  split <;> rfl

@[simp] lemma fallbackJump_rotationY (opts : Options) (s : CharState) (inp : InputState) :
    (fallbackJump opts s inp).rotationY = s.rotationY := by
  unfold fallbackJump
  split <;> rfl

@[simp] lemma fallbackJump_velX (opts : Options) (s : CharState) (inp : InputState) :
    (fallbackJump opts s inp).velocity.x = s.velocity.x := by
  unfold fallbackJump
  split <;> rfl

@[simp] lemma fallbackJump_velZ (opts : Options) (s : CharState) (inp : InputState) :
    (fallbackJump opts s inp).velocity.z = s.velocity.z := by
  unfold fallbackJump
  split <;> rfl

lemma fallbackJump_of_cond {opts : Options} {s : CharState} {inp : InputState}
    (h1 : inp.jump = true) (h2 : s.isGrounded = true) (h3 : s.jumpCooldownTimer ≤ 0) :
    fallbackJump opts s inp
      = { s with velocity := { s.velocity with y := opts.jumpForce * (1/10) },
                 isJumping := true, isGrounded := false,
                 jumpCooldownTimer := opts.jumpCooldown } := by
  unfold fallbackJump
  rw [if_pos ⟨by simp [h1], by simp [h2], h3⟩]

lemma fallbackJump_of_not_cond {opts : Options} {s : CharState} {inp : InputState}
    (h : ¬(inp.jump = true ∧ s.isGrounded = true ∧ s.jumpCooldownTimer ≤ 0)) :
    fallbackJump opts s inp = s := by
  unfold fallbackJump
  rw [if_neg]
  simpa using h

@[simp] lemma fallbackHorizontal_velY (opts : Options) (s : CharState) (inp : InputState) :
    (fallbackHorizontal opts s inp).velocity.y = s.velocity.y := by
  unfold fallbackHorizontal
  split <;> rfl

@[simp] lemma fallbackHorizontal_isGrounded (opts : Options) (s : CharState)
    (inp : InputState) : (fallbackHorizontal opts s inp).isGrounded = s.isGrounded := by
  unfold fallbackHorizontal
  split <;> rfl

@[simp] lemma fallbackHorizontal_isJumping (opts : Options) (s : CharState)
    (inp : InputState) : (fallbackHorizontal opts s inp).isJumping = s.isJumping := by
  unfold fallbackHorizontal
  split <;> rfl

@[simp] lemma fallbackHorizontal_timer (opts : Options) (s : CharState)
    (inp : InputState) :
    (fallbackHorizontal opts s inp).jumpCooldownTimer = s.jumpCooldownTimer := by
  unfold fallbackHorizontal
  split <;> rfl

@[simp] lemma fallbackHorizontal_position (opts : Options) (s : CharState)
    (inp : InputState) : (fallbackHorizontal opts s inp).position = s.position := by
  unfold fallbackHorizontal
  split <;> rfl

@[simp] lemma fallbackHorizontal_rotationY (opts : Options) (s : CharState)
    (inp : InputState) : (fallbackHorizontal opts s inp).rotationY = s.rotationY := by
  unfold fallbackHorizontal
  split <;> rfl

@[simp] lemma fallbackIntegrate_isGrounded (s : CharState) (dt : ℚ) :
    (fallbackIntegrate s dt).isGrounded = s.isGrounded := rfl

@[simp] lemma fallbackIntegrate_isJumping (s : CharState) (dt : ℚ) :
    (fallbackIntegrate s dt).isJumping = s.isJumping := rfl

@[simp] lemma fallbackIntegrate_timer (s : CharState) (dt : ℚ) :
    (fallbackIntegrate s dt).jumpCooldownTimer = s.jumpCooldownTimer := rfl

@[simp] lemma fallbackIntegrate_velocity (s : CharState) (dt : ℚ) :
    (fallbackIntegrate s dt).velocity = s.velocity := rfl

@[simp] lemma fallbackIntegrate_rotationY (s : CharState) (dt : ℚ) :
    (fallbackIntegrate s dt).rotationY = s.rotationY := rfl

lemma fallbackIntegrate_posY (s : CharState) (dt : ℚ) :
    (fallbackIntegrate s dt).position.y = s.position.y + s.velocity.y * dt := rfl

@[simp] lemma fallbackClamp_isJumping (s : CharState) :
    (fallbackClamp s).isJumping = s.isJumping := by
  unfold fallbackClamp
  split <;> rfl

@[simp] lemma fallbackClamp_timer (s : CharState) :
    (fallbackClamp s).jumpCooldownTimer = s.jumpCooldownTimer := by
  unfold fallbackClamp
  split <;> rfl

@[simp] lemma fallbackClamp_rotationY (s : CharState) :
    (fallbackClamp s).rotationY = s.rotationY := by
  unfold fallbackClamp
  split <;> rfl

@[simp] lemma fallbackClamp_velocity (s : CharState) :
    (fallbackClamp s).velocity = s.velocity := by
  unfold fallbackClamp
  split <;> rfl

lemma fallbackClamp_of_ge {s : CharState} (h : 1 ≤ s.position.y) :
    fallbackClamp s = { s with isGrounded := false } := by
  unfold fallbackClamp
  rw [if_neg (by linarith)]

/-- Floor invariant of the fallback integrator: never below the resting
height 1, and exactly at height 1 whenever grounded. -/
def FloorInv (s : CharState) : Prop :=
  1 ≤ s.position.y ∧ (s.isGrounded = true → s.position.y = 1)

lemma floorInv_fallbackClamp (s : CharState) : FloorInv (fallbackClamp s) := by
  unfold FloorInv fallbackClamp
  split
  · exact ⟨le_refl 1, fun _ => rfl⟩
  · next h =>
    push_neg at h
    exact ⟨h, by simp⟩

lemma floorInv_updateFallbackMovement (opts : Options) (tg : Trig)
    (s : CharState) (inp : InputState) (dt : ℚ) :
    FloorInv (updateFallbackMovement opts tg s inp dt) := by
  unfold updateFallbackMovement
  exact floorInv_fallbackClamp _

lemma updateFallbackMovement_eq (opts : Options) (tg : Trig) (s : CharState)
    (inp : InputState) (dt : ℚ) :
    updateFallbackMovement opts tg s inp dt =
      fallbackClamp
        (fallbackIntegrate
          (fallbackHorizontal opts
            (fallbackJump opts
              (tickCooldown
                (fallbackGravity (fallbackRotate opts tg s inp dt) dt) dt)
              inp)
            inp)
          dt) := rfl

/-! ### Helper lemmas: physics-mode path -/

@[simp] lemma physicsPreMove_velocity (opts : Options) (tg : Trig) (bp : Bool)
    (s : CharState) (inp : InputState) (dt : ℚ) (f : EngineFrame) (v : Vec3) :
    (physicsPreMove opts tg bp s inp dt f v).velocity = v := by
  unfold physicsPreMove
  rw [updateRotation_velocity]

@[simp] lemma physicsPreMove_isGrounded (opts : Options) (tg : Trig) (bp : Bool)
    (s : CharState) (inp : InputState) (dt : ℚ) (f : EngineFrame) (v : Vec3) :
    (physicsPreMove opts tg bp s inp dt f v).isGrounded = isGroundedW bp f := by
  unfold physicsPreMove
  rw [updateRotation_isGrounded]
  rw [tickCooldown_isGrounded]

@[simp] lemma physicsPreMove_isJumping (opts : Options) (tg : Trig) (bp : Bool)
    (s : CharState) (inp : InputState) (dt : ℚ) (f : EngineFrame) (v : Vec3) :
    (physicsPreMove opts tg bp s inp dt f v).isJumping = s.isJumping := by
  unfold physicsPreMove
  rw [updateRotation_isJumping]
  rw [tickCooldown_isJumping]

lemma physicsPreMove_timer (opts : Options) (tg : Trig) (bp : Bool)
    (s : CharState) (inp : InputState) (dt : ℚ) (f : EngineFrame) (v : Vec3) :
    (physicsPreMove opts tg bp s inp dt f v).jumpCooldownTimer
      = if 0 < s.jumpCooldownTimer then s.jumpCooldownTimer - dt
        else s.jumpCooldownTimer := by
  unfold physicsPreMove
  rw [updateRotation_timer]
  show (tickCooldown _ dt).jumpCooldownTimer = _
  rw [tickCooldown_timer]

lemma handleJumpStep_not_both (opts : Options) (s : CharState) (inp : InputState) :
    ¬((handleJumpStep opts s inp).isGrounded = true ∧
      (handleJumpStep opts s inp).isJumping = true) := by
  unfold handleJumpStep
  dsimp only
  split
  · split
    · simp
    · simp
  · split
    · simp
    · next h2 =>
      intro hc
      exact h2 ⟨by simp [hc.1], by simp [hc.2]⟩

lemma handleJumpStep_of_cond {opts : Options} {s : CharState} {inp : InputState}
    (h1 : inp.jump = true) (h2 : s.isGrounded = true) (h3 : s.jumpCooldownTimer ≤ 0) :
    handleJumpStep opts s inp
      = { s with isJumping := true, isGrounded := false,
                 jumpCooldownTimer := opts.jumpCooldown } := by
  unfold handleJumpStep
  dsimp only
  split_ifs with hA hB hC
  · simp at hB
  · rfl
  · exact absurd ⟨by simp [h1], by simp [h2], h3⟩ hA
  · exact absurd ⟨by simp [h1], by simp [h2], h3⟩ hA

lemma update_fallback_mode (opts : Options) (tg : Trig) {c : CtrlState}
    (h : c.usingFallback = true) (inp : InputState) (dt : ℚ) (f : EngineFrame) :
    update opts tg c inp dt f
      = { c with st := updateFallbackMovement opts tg c.st inp dt } := by
  unfold update
  rw [if_pos h]

lemma update_no_body (opts : Options) (tg : Trig) {c : CtrlState}
    (h1 : c.usingFallback = false) (h2 : c.hasBody = false)
    (inp : InputState) (dt : ℚ) (f : EngineFrame) :
    update opts tg c inp dt f
      = { c with usingFallback := true,
                 st := updateFallbackMovement opts tg c.st inp dt } := by
  unfold update
  rw [if_neg (by simp [h1]), if_pos (by simp [h2])]

lemma update_linvel_fail (opts : Options) (tg : Trig) {c : CtrlState}
    (h1 : c.usingFallback = false) (h2 : c.hasBody = true) {f : EngineFrame}
    (h3 : f.linvel = none) (inp : InputState) (dt : ℚ) :
    update opts tg c inp dt f
      = { c with usingFallback := true,
                 st := updateFallbackMovement opts tg
                   (tickCooldown { c.st with isGrounded := isGroundedW c.hasBody f } dt)
                   inp dt } := by
  unfold update
  rw [if_neg (by simp [h1]), if_neg (by simp [h2])]
  rw [h3]

lemma update_physics_ok (opts : Options) (tg : Trig) {c : CtrlState}
    (h1 : c.usingFallback = false) (h2 : c.hasBody = true) {f : EngineFrame}
    {v : Vec3} (h3 : f.linvel = some v) (inp : InputState) (dt : ℚ) :
    update opts tg c inp dt f
      = { c with st :=
            { handleJumpStep opts (physicsPreMove opts tg c.hasBody c.st inp dt f v) inp
                with position := getBodyPositionW c.hasBody f } } := by
  unfold update
  rw [if_neg (by simp [h1]), if_neg (by simp [h2])]
  rw [h3]


/-! ### Claim theorems: C5, C9, C10 -/

lemma applyOp_fallback_mono (opts : Options) (tg : Trig) (c : CtrlState)
    (op : COp) (h : c.usingFallback = true) :
    (applyOp opts tg c op).usingFallback = true := by
  cases op with
  | upd inp dt f =>
    show (update opts tg c inp dt f).usingFallback = true
    rw [update_fallback_mode opts tg h]
    exact h
  | gpos f =>
    show ((getPosition c f).1).usingFallback = true
    unfold getPosition
    rw [if_pos h]
    exact h
  | gstate => exact h

/-- Claim C5 (confirmed): mode monotonicity.  Once the controller is in
Fallback mode (usingFallback is true), no sequence of subsequent update,
getPosition or getState calls, with any inputs, delta-times or engine
behaviours, ever returns it to Physics mode; hence the Physics-to-Fallback
transition happens at most once per controller lifetime. -/
theorem mode_monotone (opts : Options) (tg : Trig) (l : List COp)
    (c : CtrlState) (h : c.usingFallback = true) :
    (List.foldl (applyOp opts tg) c l).usingFallback = true := by
  induction l generalizing c with
  | nil => exact h
  | cons op rest ih =>
    exact ih _ (applyOp_fallback_mono opts tg c op h)

/-- Witness for C5 at a concrete controller state and operation list. -/
theorem mode_monotone_witness :
    (({ st := initialState, usingFallback := true, hasBody := true } : CtrlState).usingFallback
        = true)
    ∧ (List.foldl (applyOp defaultOptions axisTrig)
        { st := initialState, usingFallback := true, hasBody := true }
        [COp.upd { move := ⟨0, -1⟩, jump := true } (1/60)
           { probeTranslation := some ⟨0, 1, 0⟩, castRay := some true,
             linvel := some ⟨0, 0, 0⟩, posTranslation := some ⟨0, 1, 0⟩,
             setLinvelFails := false, applyImpulseFails := false },
         COp.gpos
           { probeTranslation := none, castRay := none, linvel := none,
             posTranslation := none, setLinvelFails := true,
             applyImpulseFails := true },
         COp.gstate]).usingFallback = true :=
  ⟨rfl, mode_monotone defaultOptions axisTrig _ _ rfl⟩

/-- Claim C9 (confirmed): frame condition on vertical velocity.  The target
velocity computed by handleMovement keeps the y component equal to the
velocity previously stored (clause 1); the fallback horizontal-movement and
decay block never modifies velocity.y (clause 2); and in the physics path
the target velocity applied to the body has y equal to the value the
controller just read from the engine via body.linvel (clause 3). -/
theorem vertical_velocity_untouched :
    (∀ (opts : Options) (s : CharState) (move : Vec2),
       (movementTargetVelocity opts s move).y = s.velocity.y)
    ∧ (∀ (opts : Options) (s : CharState) (inp : InputState),
       (fallbackHorizontal opts s inp).velocity.y = s.velocity.y)
    ∧ (∀ (opts : Options) (tg : Trig) (bp : Bool) (s : CharState)
         (inp : InputState) (dt : ℚ) (f : EngineFrame) (v : Vec3),
       (movementTargetVelocity opts
          (physicsPreMove opts tg bp s inp dt f v) inp.move).y = v.y) := by
  have base : ∀ (opts : Options) (s : CharState) (move : Vec2),
      (movementTargetVelocity opts s move).y = s.velocity.y := by
    intro opts s move
    unfold movementTargetVelocity
    dsimp only
    split
    · split <;> rfl
    · rfl
  refine ⟨base, fun opts s inp => fallbackHorizontal_velY opts s inp, ?_⟩
  intro opts tg bp s inp dt f v
  rw [base, physicsPreMove_velocity]

/-- Claim C10 (confirmed): implicit floor invariant of the fallback
integrator.  For every input and every dt at least 0, updateFallbackMovement
ends with position.y at least 1, and whenever it ends grounded the height is
exactly 1: the character never finishes a fallback frame below the ground
plane. -/
theorem fallback_floor (opts : Options) (tg : Trig) (s : CharState)
    (inp : InputState) (dt : ℚ) (_hdt : 0 ≤ dt) :
    1 ≤ (updateFallbackMovement opts tg s inp dt).position.y ∧
    ((updateFallbackMovement opts tg s inp dt).isGrounded = true →
      (updateFallbackMovement opts tg s inp dt).position.y = 1) :=
  floorInv_updateFallbackMovement opts tg s inp dt

/-- Witness for C10 at a concrete state and dt. -/
theorem fallback_floor_witness :
    (0 : ℚ) ≤ 1/60 ∧
    (1 ≤ (updateFallbackMovement defaultOptions axisTrig initialState
            { move := ⟨0, 0⟩, jump := false } (1/60)).position.y ∧
     ((updateFallbackMovement defaultOptions axisTrig initialState
            { move := ⟨0, 0⟩, jump := false } (1/60)).isGrounded = true →
       (updateFallbackMovement defaultOptions axisTrig initialState
            { move := ⟨0, 0⟩, jump := false } (1/60)).position.y = 1)) :=
  ⟨by norm_num, fallback_floor defaultOptions axisTrig initialState
      { move := ⟨0, 0⟩, jump := false } (1/60) (by norm_num)⟩



/-! ### Claim theorems: C6, C7 -/
/-- Claim C6 (confirmed): jump initiation.  From a grounded state with the
cooldown timer at most 0 and jump requested, a single update in fallback
mode (clause 1, for reachable states with position.y at least 1 and a
non-negative jump force and dt) and in physics mode (clause 2, when the
ground probe reports grounded and the velocity read succeeds) ends with
isJumping true, isGrounded false and the timer equal to the configured
cooldown 0.3; the landing-reset step of the same frame does not clear the
just-set isJumping. -/
theorem jump_initiation (opts : Options) (tg : Trig) :
    (∀ (s : CharState) (inp : InputState) (dt : ℚ),
      inp.jump = true → s.isGrounded = true → s.jumpCooldownTimer ≤ 0 →
      1 ≤ s.position.y → 0 ≤ dt → 0 ≤ opts.jumpForce → opts.jumpCooldown = 3/10 →
      (updateFallbackMovement opts tg s inp dt).isJumping = true ∧
      (updateFallbackMovement opts tg s inp dt).isGrounded = false ∧
      (updateFallbackMovement opts tg s inp dt).jumpCooldownTimer = 3/10)
    ∧
    (∀ (c : CtrlState) (inp : InputState) (dt : ℚ) (f : EngineFrame) (v : Vec3),
      c.usingFallback = false → c.hasBody = true → f.linvel = some v →
      inp.jump = true → isGroundedW c.hasBody f = true →
      c.st.jumpCooldownTimer ≤ 0 → opts.jumpCooldown = 3/10 →
      (update opts tg c inp dt f).st.isJumping = true ∧
      (update opts tg c inp dt f).st.isGrounded = false ∧
      (update opts tg c inp dt f).st.jumpCooldownTimer = 3/10) := by
  constructor
  · intro s inp dt hj hg ht hy hdt hjf hcd
    rw [updateFallbackMovement_eq]
    set sR := fallbackRotate opts tg s inp dt with hsR
    have hRg : sR.isGrounded = true := by
      rw [hsR, fallbackRotate_isGrounded]
      exact hg
    rw [fallbackGravity_of_grounded hRg dt]
    set sG : CharState :=
      { sR with velocity := { sR.velocity with y := 0 }, isJumping := false }
      with hsG
    have hGt : sG.jumpCooldownTimer ≤ 0 := by
      rw [hsG]
      show sR.jumpCooldownTimer ≤ 0
      rw [hsR, fallbackRotate_timer]
      exact ht
    rw [tickCooldown_of_nonpos hGt dt]
    have hGg : sG.isGrounded = true := by
      rw [hsG]
      exact hRg
    rw [fallbackJump_of_cond hj hGg hGt]
    set sJ : CharState :=
      { sG with velocity := { sG.velocity with y := opts.jumpForce * (1/10) },
                isJumping := true, isGrounded := false,
                jumpCooldownTimer := opts.jumpCooldown } with hsJ
    have hIy : 1 ≤ (fallbackIntegrate (fallbackHorizontal opts sJ inp) dt).position.y := by
      rw [fallbackIntegrate_posY, fallbackHorizontal_position, fallbackHorizontal_velY]
      have h1 : sJ.position.y = s.position.y := by
        rw [hsJ]
        show sG.position.y = s.position.y
        rw [hsG]
        show sR.position.y = s.position.y
        rw [hsR, fallbackRotate_position]
      have h2 : sJ.velocity.y = opts.jumpForce * (1/10) := by rw [hsJ]
      rw [h1, h2]
      have : 0 ≤ opts.jumpForce * (1/10) * dt := by positivity
      linarith
    rw [fallbackClamp_of_ge hIy]
    refine ⟨?_, rfl, ?_⟩
    · show (fallbackIntegrate (fallbackHorizontal opts sJ inp) dt).isJumping = true
      rw [fallbackIntegrate_isJumping, fallbackHorizontal_isJumping, hsJ]
    · show (fallbackIntegrate (fallbackHorizontal opts sJ inp) dt).jumpCooldownTimer = 3/10
      rw [fallbackIntegrate_timer, fallbackHorizontal_timer, hsJ]
      show opts.jumpCooldown = 3/10
      exact hcd
  · intro c inp dt f v h1 h2 h3 hj hg ht hcd
    rw [update_physics_ok opts tg h1 h2 h3 inp dt]
    set sP := physicsPreMove opts tg c.hasBody c.st inp dt f v with hsP
    have hPg : sP.isGrounded = true := by
      rw [hsP, physicsPreMove_isGrounded]
      exact hg
    have hPt : sP.jumpCooldownTimer ≤ 0 := by
      rw [hsP, physicsPreMove_timer]
      rw [if_neg (not_lt.mpr ht)]
      exact ht
    rw [handleJumpStep_of_cond hj hPg hPt]
    exact ⟨rfl, rfl, hcd⟩

/-- Witness for C6 at a concrete grounded state. -/
theorem jump_initiation_witness :
    (({ initialState with isGrounded := true } : CharState).jumpCooldownTimer ≤ 0)
    ∧ ((updateFallbackMovement defaultOptions axisTrig
          { initialState with isGrounded := true }
          { move := ⟨0, 0⟩, jump := true } (1/60)).isJumping = true ∧
       (updateFallbackMovement defaultOptions axisTrig
          { initialState with isGrounded := true }
          { move := ⟨0, 0⟩, jump := true } (1/60)).isGrounded = false ∧
       (updateFallbackMovement defaultOptions axisTrig
          { initialState with isGrounded := true }
          { move := ⟨0, 0⟩, jump := true } (1/60)).jumpCooldownTimer = 3/10) :=
  ⟨by norm_num [initialState],
   (jump_initiation defaultOptions axisTrig).1 _ _ _ rfl rfl
     (by norm_num [initialState]) (by norm_num [initialState]) (by norm_num)
     (by norm_num [defaultOptions]) rfl⟩

lemma fallback_after_landing {opts : Options} {tg : Trig} {s1 : CharState}
    (hInv : FloorInv s1) (hg : s1.isGrounded = true) {i2 : InputState} {dt2 : ℚ}
    (hdt : 0 ≤ dt2) (hjf : 0 ≤ opts.jumpForce) :
    ¬((updateFallbackMovement opts tg s1 i2 dt2).isJumping = true ∧
      (updateFallbackMovement opts tg s1 i2 dt2).isGrounded = true) := by
  have hy1 : s1.position.y = 1 := hInv.2 hg
  rw [updateFallbackMovement_eq]
  set sR := fallbackRotate opts tg s1 i2 dt2 with hsR
  have hRg : sR.isGrounded = true := by
    rw [hsR, fallbackRotate_isGrounded]
    exact hg
  rw [fallbackGravity_of_grounded hRg dt2]
  set sG : CharState :=
    { sR with velocity := { sR.velocity with y := 0 }, isJumping := false } with hsG
  set sT := tickCooldown sG dt2 with hsT
  by_cases hcond : i2.jump = true ∧ sT.isGrounded = true ∧ sT.jumpCooldownTimer ≤ 0
  · rw [fallbackJump_of_cond hcond.1 hcond.2.1 hcond.2.2]
    set sJ : CharState :=
      { sT with velocity := { sT.velocity with y := opts.jumpForce * (1/10) },
                isJumping := true, isGrounded := false,
                jumpCooldownTimer := opts.jumpCooldown } with hsJ
    have hIy : 1 ≤ (fallbackIntegrate (fallbackHorizontal opts sJ i2) dt2).position.y := by
      rw [fallbackIntegrate_posY, fallbackHorizontal_position, fallbackHorizontal_velY]
      have h1 : sJ.position.y = s1.position.y := by
        rw [hsJ]
        show sT.position.y = s1.position.y
        rw [hsT, tickCooldown_position, hsG]
        show sR.position.y = s1.position.y
        rw [hsR, fallbackRotate_position]
      have h2 : sJ.velocity.y = opts.jumpForce * (1/10) := by rw [hsJ]
      rw [h1, h2, hy1]
      have : 0 ≤ opts.jumpForce * (1/10) * dt2 := by positivity
      linarith
    rw [fallbackClamp_of_ge hIy]
    intro hc
    exact absurd hc.2 (by simp)
  · rw [fallbackJump_of_not_cond hcond]
    have hTj : sT.isJumping = false := by
      rw [hsT, tickCooldown_isJumping, hsG]
    intro hc
    have hfin : (fallbackClamp (fallbackIntegrate (fallbackHorizontal opts sT i2)
        dt2)).isJumping = false := by
      rw [fallbackClamp_isJumping, fallbackIntegrate_isJumping,
        fallbackHorizontal_isJumping, hTj]
    rw [hfin] at hc
    exact absurd hc.1 (by simp)

/-- Claim C7 (confirmed): isGrounded and isJumping are never both true at
the end of two consecutive frames.  In fallback mode, if a frame ends with
both flags true (the landing frame), the next frame with non-negative dt and
a non-negative jump force cannot end with both true again (clause 1); a
physics-mode frame that keeps the physics path never ends with both true at
all, so jump initiation never leaves both true (clause 2). -/
theorem grounded_jumping_single_frame (opts : Options) (tg : Trig) :
    (∀ (s0 : CharState) (i1 i2 : InputState) (dt1 dt2 : ℚ),
      0 ≤ dt2 → 0 ≤ opts.jumpForce →
      (updateFallbackMovement opts tg s0 i1 dt1).isJumping = true →
      (updateFallbackMovement opts tg s0 i1 dt1).isGrounded = true →
      ¬((updateFallbackMovement opts tg (updateFallbackMovement opts tg s0 i1 dt1)
           i2 dt2).isJumping = true ∧
        (updateFallbackMovement opts tg (updateFallbackMovement opts tg s0 i1 dt1)
           i2 dt2).isGrounded = true))
    ∧ (∀ (c : CtrlState) (inp : InputState) (dt : ℚ) (f : EngineFrame) (v : Vec3),
        c.usingFallback = false → c.hasBody = true → f.linvel = some v →
        ¬((update opts tg c inp dt f).st.isJumping = true ∧
          (update opts tg c inp dt f).st.isGrounded = true)) := by
  constructor
  · intro s0 i1 i2 dt1 dt2 hdt2 hjf _hj1 hg1
    exact fallback_after_landing
      (floorInv_updateFallbackMovement opts tg s0 i1 dt1) hg1 hdt2 hjf
  · intro c inp dt f v h1 h2 h3
    rw [update_physics_ok opts tg h1 h2 h3 inp dt]
    intro hc
    exact handleJumpStep_not_both opts
      (physicsPreMove opts tg c.hasBody c.st inp dt f v) inp ⟨hc.2, hc.1⟩

/-- Witness for C7: a concrete landing frame followed by a zero-dt frame. -/
theorem grounded_jumping_single_frame_witness :
    (0 : ℚ) ≤ 0 ∧
    ¬((updateFallbackMovement defaultOptions axisTrig
         (updateFallbackMovement defaultOptions axisTrig
           { initialState with isGrounded := false, isJumping := true,
                               position := ⟨0, 1, 0⟩,
                               velocity := ⟨0, -1, 0⟩ }
           { move := ⟨0, 0⟩, jump := false } (1/10))
         { move := ⟨0, 0⟩, jump := false } 0).isJumping = true ∧
      (updateFallbackMovement defaultOptions axisTrig
         (updateFallbackMovement defaultOptions axisTrig
           { initialState with isGrounded := false, isJumping := true,
                               position := ⟨0, 1, 0⟩,
                               velocity := ⟨0, -1, 0⟩ }
           { move := ⟨0, 0⟩, jump := false } (1/10))
         { move := ⟨0, 0⟩, jump := false } 0).isGrounded = true) :=
  ⟨le_refl 0,
   (grounded_jumping_single_frame defaultOptions axisTrig).1 _ _ _ _ _
     (le_refl 0) (by norm_num [defaultOptions])
     (by norm_num [updateFallbackMovement, fallbackClamp, fallbackIntegrate,
        fallbackHorizontal, fallbackJump, tickCooldown, fallbackGravity,
        fallbackRotate, updateRotation, initialState, defaultOptions])
     (by norm_num [updateFallbackMovement, fallbackClamp, fallbackIntegrate,
        fallbackHorizontal, fallbackJump, tickCooldown, fallbackGravity,
        fallbackRotate, updateRotation, initialState, defaultOptions])⟩



/-! ### Claim theorems: C3 -/
lemma fallback_timer_eq (opts : Options) (tg : Trig) (s : CharState)
    (inp : InputState) (dt : ℚ) :
    (updateFallbackMovement opts tg s inp dt).jumpCooldownTimer
      = if inp.jump = true ∧ s.isGrounded = true ∧
           (if 0 < s.jumpCooldownTimer then s.jumpCooldownTimer - dt
            else s.jumpCooldownTimer) ≤ 0
        then opts.jumpCooldown
        else (if 0 < s.jumpCooldownTimer then s.jumpCooldownTimer - dt
              else s.jumpCooldownTimer) := by
  rw [updateFallbackMovement_eq]
  rw [fallbackClamp_timer, fallbackIntegrate_timer, fallbackHorizontal_timer]
  set sR := fallbackRotate opts tg s inp dt with hsR
  set sG := fallbackGravity sR dt with hsG
  set sT := tickCooldown sG dt with hsT
  have hTg : sT.isGrounded = s.isGrounded := by
    rw [hsT, tickCooldown_isGrounded, hsG, fallbackGravity_isGrounded, hsR,
      fallbackRotate_isGrounded]
  have hTt : sT.jumpCooldownTimer
      = if 0 < s.jumpCooldownTimer then s.jumpCooldownTimer - dt
        else s.jumpCooldownTimer := by
    rw [hsT, tickCooldown_timer, hsG, fallbackGravity_timer, hsR,
      fallbackRotate_timer]
  by_cases hc : inp.jump = true ∧ s.isGrounded = true ∧
      (if 0 < s.jumpCooldownTimer then s.jumpCooldownTimer - dt
       else s.jumpCooldownTimer) ≤ 0
  · rw [fallbackJump_of_cond hc.1 (by rw [hTg]; exact hc.2.1) (by rw [hTt]; exact hc.2.2)]
    rw [if_pos hc]
  · rw [fallbackJump_of_not_cond (by rw [hTg, hTt]; exact hc)]
    rw [if_neg hc, hTt]

lemma handleJumpStep_timer (opts : Options) (s : CharState) (inp : InputState) :
    (handleJumpStep opts s inp).jumpCooldownTimer = opts.jumpCooldown ∨
    (handleJumpStep opts s inp).jumpCooldownTimer = s.jumpCooldownTimer := by
  unfold handleJumpStep
  dsimp only
  split_ifs <;> simp

/-- Claim C3 counterexample (claim corrected): the jump cooldown timer is
not clamped at 0.  From timer 0.1 with dt 0.3 and no jump input, one
fallback update leaves the timer at -0.2, which is negative, contradicting
the claim that the timer is always at least 0 after each update with
non-negative dt. -/
theorem cooldown_goes_negative :
    (updateFallbackMovement defaultOptions axisTrig
       { initialState with jumpCooldownTimer := 1/10 }
       { move := ⟨0, 0⟩, jump := false } (3/10)).jumpCooldownTimer = -(1/5)
    ∧ (-(1/5) : ℚ) < 0 := by
  constructor
  · norm_num [updateFallbackMovement, fallbackClamp, fallbackIntegrate,
      fallbackHorizontal, fallbackJump, tickCooldown, fallbackGravity,
      fallbackRotate, updateRotation, initialState, defaultOptions]
  · norm_num

/-- Claim C3 amended (corrected): the timer is decremented by dt only while
positive, with no clamp, so one frame can leave it negative, but never below
-D when every dt lies in [0, D] and the timer was at least -D before
(clause 1 for the fallback path, clause 4 for the physics path); with no
jump input the timer changes exactly by the unclamped decrement-when-positive
rule (clause 2); otherwise it either resets to the configured cooldown on
jump initiation or follows that same rule (clause 3). -/
theorem cooldown_amended (opts : Options) (tg : Trig) :
    (∀ (s : CharState) (inp : InputState) (dt D : ℚ),
      0 ≤ dt → dt ≤ D → -D ≤ s.jumpCooldownTimer → 0 ≤ opts.jumpCooldown →
      -D ≤ (updateFallbackMovement opts tg s inp dt).jumpCooldownTimer)
    ∧ (∀ (s : CharState) (inp : InputState) (dt : ℚ), inp.jump = false →
      (updateFallbackMovement opts tg s inp dt).jumpCooldownTimer
        = if 0 < s.jumpCooldownTimer then s.jumpCooldownTimer - dt
          else s.jumpCooldownTimer)
    ∧ (∀ (s : CharState) (inp : InputState) (dt : ℚ),
      (updateFallbackMovement opts tg s inp dt).jumpCooldownTimer = opts.jumpCooldown
      ∨ (updateFallbackMovement opts tg s inp dt).jumpCooldownTimer
          = (if 0 < s.jumpCooldownTimer then s.jumpCooldownTimer - dt
             else s.jumpCooldownTimer))
    ∧ (∀ (c : CtrlState) (inp : InputState) (dt D : ℚ) (f : EngineFrame) (v : Vec3),
      c.usingFallback = false → c.hasBody = true → f.linvel = some v →
      0 ≤ dt → dt ≤ D → -D ≤ c.st.jumpCooldownTimer → 0 ≤ opts.jumpCooldown →
      -D ≤ (update opts tg c inp dt f).st.jumpCooldownTimer) := by
  refine ⟨?_, ?_, ?_, ?_⟩
  · intro s inp dt D hdt hD ht hcd
    rw [fallback_timer_eq]
    split_ifs with h1 h2 h3 <;> linarith
  · intro s inp dt hj
    rw [fallback_timer_eq]
    rw [if_neg (by simp [hj])]
  · intro s inp dt
    rw [fallback_timer_eq]
    split_ifs <;> simp
  · intro c inp dt D f v h1 h2 h3 hdt hD ht hcd
    rw [update_physics_ok opts tg h1 h2 h3 inp dt]
    have hrec : ({ handleJumpStep opts
          (physicsPreMove opts tg c.hasBody c.st inp dt f v) inp
          with position := getBodyPositionW c.hasBody f } : CharState).jumpCooldownTimer
        = (handleJumpStep opts
            (physicsPreMove opts tg c.hasBody c.st inp dt f v) inp).jumpCooldownTimer := rfl
    show -D ≤ ({ handleJumpStep opts
          (physicsPreMove opts tg c.hasBody c.st inp dt f v) inp
          with position := getBodyPositionW c.hasBody f } : CharState).jumpCooldownTimer
    rw [hrec]
    rcases handleJumpStep_timer opts
        (physicsPreMove opts tg c.hasBody c.st inp dt f v) inp with h | h
    · rw [h]
      linarith
    · rw [h, physicsPreMove_timer]
      split_ifs with hp <;> linarith

/-- Witness for the amended C3 at a concrete state and dt. -/
theorem cooldown_amended_witness :
    ((0 : ℚ) ≤ 1/10 ∧ (1/10 : ℚ) ≤ 1/10 ∧
      -(1/10) ≤ (initialState : CharState).jumpCooldownTimer ∧
      (0 : ℚ) ≤ defaultOptions.jumpCooldown)
    ∧ -(1/10) ≤ (updateFallbackMovement defaultOptions axisTrig initialState
        { move := ⟨0, 0⟩, jump := false } (1/10)).jumpCooldownTimer :=
  ⟨⟨by norm_num, by norm_num, by norm_num [initialState], by norm_num [defaultOptions]⟩,
   (cooldown_amended defaultOptions axisTrig).1 initialState
     { move := ⟨0, 0⟩, jump := false } (1/10) (1/10) (by norm_num) (by norm_num)
     (by norm_num [initialState]) (by norm_num [defaultOptions])⟩



/-! ### Claim theorems: C1, C2 -/
/-- Claim C1 counterexample (claim corrected): a physics-engine failure
occurs during update in physics mode (the body.translation() call inside
the ground probe throws), yet the controller does not convert mode to
Fallback, so the frame is not reprocessed through the fallback path:
PhysicsWorld.isGrounded swallows the error and returns true. -/
theorem frame_with_engine_failure_not_reprocessed :
    (update defaultOptions axisTrig
       { st := initialState, usingFallback := false, hasBody := true }
       { move := ⟨0, 0⟩, jump := false } (1/60)
       { probeTranslation := none, castRay := some true,
         linvel := some ⟨0, 0, 0⟩, posTranslation := some ⟨0, 1, 0⟩,
         setLinvelFails := false, applyImpulseFails := false }).usingFallback
      = false := rfl

/-- Claim C1 amended (corrected): only failures that reach the controller
convert mode to Fallback and reprocess the frame.  A failing direct velocity
read (body.linvel throwing) flips usingFallback and runs the very same frame
(same input and dt) through updateFallbackMovement, on the state already
holding the probe result and ticked cooldown (clause 1); a missing body does
the same from the unmodified state (clause 2); when the velocity read
succeeds the frame completes on the physics path and mode stays Physics,
whatever the other capability calls did (clause 3).  Failures inside the
wrapped capability calls never reach handleMovement or handleJump, whose
catch blocks are dead code. -/
theorem failure_reprocessing_amended (opts : Options) (tg : Trig) :
    (∀ (c : CtrlState) (inp : InputState) (dt : ℚ) (f : EngineFrame),
      c.usingFallback = false → c.hasBody = true → f.linvel = none →
      (update opts tg c inp dt f).usingFallback = true ∧
      (update opts tg c inp dt f).st
        = updateFallbackMovement opts tg
            (tickCooldown { c.st with isGrounded := isGroundedW c.hasBody f } dt)
            inp dt)
    ∧ (∀ (c : CtrlState) (inp : InputState) (dt : ℚ) (f : EngineFrame),
      c.usingFallback = false → c.hasBody = false →
      (update opts tg c inp dt f).usingFallback = true ∧
      (update opts tg c inp dt f).st = updateFallbackMovement opts tg c.st inp dt)
    ∧ (∀ (c : CtrlState) (inp : InputState) (dt : ℚ) (f : EngineFrame) (v : Vec3),
      c.usingFallback = false → c.hasBody = true → f.linvel = some v →
      (update opts tg c inp dt f).usingFallback = false) := by
  refine ⟨?_, ?_, ?_⟩
  · intro c inp dt f h1 h2 h3
    rw [update_linvel_fail opts tg h1 h2 h3 inp dt]
    exact ⟨rfl, rfl⟩
  · intro c inp dt f h1 h2
    rw [update_no_body opts tg h1 h2 inp dt f]
    exact ⟨rfl, rfl⟩
  · intro c inp dt f v h1 h2 h3
    rw [update_physics_ok opts tg h1 h2 h3 inp dt]
    exact h1

/-- Witness for the amended C1: a concrete frame whose velocity read fails
is reprocessed through the fallback path. -/
theorem failure_reprocessing_amended_witness :
    (({ st := initialState, usingFallback := false, hasBody := true } :
        CtrlState).usingFallback = false)
    ∧ ((update defaultOptions axisTrig
          { st := initialState, usingFallback := false, hasBody := true }
          { move := ⟨0, 0⟩, jump := false } (1/60)
          { probeTranslation := some ⟨0, 1, 0⟩, castRay := some true,
            linvel := none, posTranslation := some ⟨0, 1, 0⟩,
            setLinvelFails := false, applyImpulseFails := false }).usingFallback = true
       ∧ (update defaultOptions axisTrig
          { st := initialState, usingFallback := false, hasBody := true }
          { move := ⟨0, 0⟩, jump := false } (1/60)
          { probeTranslation := some ⟨0, 1, 0⟩, castRay := some true,
            linvel := none, posTranslation := some ⟨0, 1, 0⟩,
            setLinvelFails := false, applyImpulseFails := false }).st
          = updateFallbackMovement defaultOptions axisTrig
              (tickCooldown
                { ({ st := initialState, usingFallback := false, hasBody := true } :
                    CtrlState).st with
                  isGrounded := isGroundedW
                    ({ st := initialState, usingFallback := false, hasBody := true } :
                      CtrlState).hasBody
                    { probeTranslation := some ⟨0, 1, 0⟩, castRay := some true,
                      linvel := none, posTranslation := some ⟨0, 1, 0⟩,
                      setLinvelFails := false, applyImpulseFails := false } }
                (1/60))
              { move := ⟨0, 0⟩, jump := false } (1/60)) :=
  ⟨rfl,
   (failure_reprocessing_amended defaultOptions axisTrig).1 _ _ _ _ rfl rfl rfl⟩

/-- Claim C2 counterexample (claim corrected): the velocity-set and impulse
capability calls fail (body.setLinvel and body.applyImpulse throw inside
their PhysicsWorld wrappers), yet the controller remains in Physics mode:
the wrappers swallow the error, so a failing capability call does not
transition mode to Fallback. -/
theorem failing_capability_call_keeps_physics_mode :
    (update defaultOptions axisTrig
       { st := initialState, usingFallback := false, hasBody := true }
       { move := ⟨0, 0⟩, jump := false } (1/60)
       { probeTranslation := some ⟨0, 1, 0⟩, castRay := some true,
         linvel := some ⟨0, 0, 0⟩, posTranslation := some ⟨0, 1, 0⟩,
         setLinvelFails := true, applyImpulseFails := true }).usingFallback
      = false := rfl

/-- Claim C2 amended (corrected): only a failing direct velocity read
degrades the mode (clause 1); any frame whose velocity read succeeds leaves
the controller in Physics mode regardless of failures in the other
capability calls (clause 2); the wrappers swallow those failures and return
defaults: a failing ground probe reports grounded equals true (clauses 3
and 4) and a failing position read reports position (0,0,0) (clause 5). -/
theorem capability_failure_amended (opts : Options) (tg : Trig) :
    (∀ (c : CtrlState) (inp : InputState) (dt : ℚ) (f : EngineFrame),
      c.usingFallback = false → c.hasBody = true → f.linvel = none →
      (update opts tg c inp dt f).usingFallback = true)
    ∧ (∀ (c : CtrlState) (inp : InputState) (dt : ℚ) (f : EngineFrame) (v : Vec3),
      c.usingFallback = false → c.hasBody = true → f.linvel = some v →
      (update opts tg c inp dt f).usingFallback = false)
    ∧ (∀ f : EngineFrame, f.probeTranslation = none → isGroundedW true f = true)
    ∧ (∀ f : EngineFrame, f.castRay = none → isGroundedW true f = true)
    ∧ (∀ f : EngineFrame, f.posTranslation = none →
        getBodyPositionW true f = ⟨0, 0, 0⟩) := by
  refine ⟨?_, ?_, ?_, ?_, ?_⟩
  · intro c inp dt f h1 h2 h3
    rw [update_linvel_fail opts tg h1 h2 h3 inp dt]
  · intro c inp dt f v h1 h2 h3
    rw [update_physics_ok opts tg h1 h2 h3 inp dt]
    exact h1
  · intro f hf
    unfold isGroundedW
    rw [hf]
    rfl
  · intro f hf
    unfold isGroundedW
    cases hp : f.probeTranslation with
    | none => rfl
    | some p =>
      rw [hf]
      rfl
  · intro f hf
    unfold getBodyPositionW
    rw [hf]
    rfl

/-- Witness for the amended C2: a frame with a failed ground probe reports
grounded equals true. -/
theorem capability_failure_amended_witness :
    (({ st := initialState, usingFallback := false, hasBody := true } :
        CtrlState).hasBody = true)
    ∧ isGroundedW true
        { probeTranslation := none, castRay := some false,
          linvel := some ⟨0, 0, 0⟩, posTranslation := some ⟨0, 1, 0⟩,
          setLinvelFails := false, applyImpulseFails := false } = true :=
  ⟨rfl,
   (capability_failure_amended defaultOptions axisTrig).2.2.1
     { probeTranslation := none, castRay := some false,
       linvel := some ⟨0, 0, 0⟩, posTranslation := some ⟨0, 1, 0⟩,
       setLinvelFails := false, applyImpulseFails := false } rfl⟩



/-! ### Claim theorems: C8 -/
lemma fallbackRotate_zero (opts : Options) (tg : Trig) (s : CharState)
    (j : Bool) (dt : ℚ) :
    fallbackRotate opts tg s { move := ⟨0, 0⟩, jump := j } dt
      = { s with movementDirection := ⟨0, 0⟩ } := by
  unfold fallbackRotate
  exact updateRotation_zero opts tg _ dt

lemma fallbackIntegrate_position_zero (s : CharState) :
    (fallbackIntegrate s 0).position = s.position := by
  unfold fallbackIntegrate
  dsimp only
  have hx : s.position.x + s.velocity.x * 0 = s.position.x := by ring
  have hy : s.position.y + s.velocity.y * 0 = s.position.y := by ring
  have hz : s.position.z + s.velocity.z * 0 = s.position.z := by ring
  rw [hx, hy, hz]

lemma fallback_zero_step (opts : Options) (tg : Trig) (s : CharState) (j : Bool)
    (hy : 1 ≤ s.position.y) :
    (updateFallbackMovement opts tg s { move := ⟨0, 0⟩, jump := j } 0).position
        = s.position
    ∧ (updateFallbackMovement opts tg s { move := ⟨0, 0⟩, jump := j } 0).rotationY
        = s.rotationY := by
  rw [updateFallbackMovement_eq, fallbackRotate_zero]
  set sH := fallbackHorizontal opts
    (fallbackJump opts
      (tickCooldown (fallbackGravity { s with movementDirection := ⟨0, 0⟩ } 0) 0)
      { move := ⟨0, 0⟩, jump := j })
    { move := ⟨0, 0⟩, jump := j } with hsH
  have hHp : sH.position = s.position := by
    rw [hsH, fallbackHorizontal_position, fallbackJump_position,
      tickCooldown_position, fallbackGravity_position]
  have hHr : sH.rotationY = s.rotationY := by
    rw [hsH, fallbackHorizontal_rotationY, fallbackJump_rotationY,
      tickCooldown_rotationY, fallbackGravity_rotationY]
  have hIp : (fallbackIntegrate sH 0).position = s.position := by
    rw [fallbackIntegrate_position_zero, hHp]
  have hIy : 1 ≤ (fallbackIntegrate sH 0).position.y := by
    rw [hIp]
    exact hy
  rw [fallbackClamp_of_ge hIy]
  constructor
  · exact hIp
  · show (fallbackIntegrate sH 0).rotationY = s.rotationY
    rw [fallbackIntegrate_rotationY, hHr]

lemma handleJumpStep_rotationY (opts : Options) (s : CharState) (inp : InputState) :
    (handleJumpStep opts s inp).rotationY = s.rotationY := by
  unfold handleJumpStep
  dsimp only
  split_ifs <;> rfl

lemma physicsPreMove_rotationY_zero (opts : Options) (tg : Trig) (bp : Bool)
    (s : CharState) (j : Bool) (dt : ℚ) (f : EngineFrame) (v : Vec3) :
    (physicsPreMove opts tg bp s { move := ⟨0, 0⟩, jump := j } dt f v).rotationY
      = s.rotationY := by
  unfold physicsPreMove
  dsimp only
  rw [updateRotation_zero]
  show (tickCooldown _ dt).rotationY = s.rotationY
  rw [tickCooldown_rotationY]

/-- Claim C8 counterexample (claim corrected): from the freshly constructed
controller state (cached position (0,1,0), physics mode, body spawned at
(0,5,0)), a single update with zero movement and dt 0 changes position to
the engine-reported (0,5,0), so update with zero input is not idempotent on
position in physics mode. -/
theorem first_physics_update_changes_position :
    (({ st := initialState, usingFallback := false, hasBody := true } :
        CtrlState).st.position = ⟨0, 1, 0⟩)
    ∧ ((update defaultOptions axisTrig
          { st := initialState, usingFallback := false, hasBody := true }
          { move := ⟨0, 0⟩, jump := false } 0
          { probeTranslation := some ⟨0, 5, 0⟩, castRay := some false,
            linvel := some ⟨0, 0, 0⟩, posTranslation := some ⟨0, 5, 0⟩,
            setLinvelFails := false, applyImpulseFails := false }).st.position
        = ⟨0, 5, 0⟩)
    ∧ ((⟨0, 5, 0⟩ : Vec3) ≠ ⟨0, 1, 0⟩) := by
  refine ⟨rfl, rfl, ?_⟩
  simp only [ne_eq, Vec3.mk.injEq]
  norm_num

/-- Claim C8 amended (corrected): with a zero movement vector and dt 0,
repeated fallback updates leave position and rotationY unchanged for every
state satisfying the floor invariant position.y at least 1 (clause 1, for
any number of iterations and any jump flag); in physics mode each update
sets position to the engine-reported value, so the first call may change the
cached position but every further call with the same engine frame leaves
position and rotationY unchanged (clause 2). -/
theorem idempotence_amended (opts : Options) (tg : Trig) :
    (∀ (s : CharState) (j : Bool) (n : ℕ), 1 ≤ s.position.y →
      ((fun st => updateFallbackMovement opts tg st { move := ⟨0, 0⟩, jump := j } 0)^[n]
          s).position = s.position
      ∧ ((fun st => updateFallbackMovement opts tg st { move := ⟨0, 0⟩, jump := j } 0)^[n]
          s).rotationY = s.rotationY)
    ∧ (∀ (c : CtrlState) (j : Bool) (f : EngineFrame) (v : Vec3),
      c.usingFallback = false → c.hasBody = true → f.linvel = some v →
      (update opts tg c { move := ⟨0, 0⟩, jump := j } 0 f).st.position
          = getBodyPositionW c.hasBody f
      ∧ (update opts tg (update opts tg c { move := ⟨0, 0⟩, jump := j } 0 f)
           { move := ⟨0, 0⟩, jump := j } 0 f).st.position
          = (update opts tg c { move := ⟨0, 0⟩, jump := j } 0 f).st.position
      ∧ (update opts tg (update opts tg c { move := ⟨0, 0⟩, jump := j } 0 f)
           { move := ⟨0, 0⟩, jump := j } 0 f).st.rotationY
          = (update opts tg c { move := ⟨0, 0⟩, jump := j } 0 f).st.rotationY) := by
  constructor
  · intro s j n hy
    induction n with
    | zero => exact ⟨rfl, rfl⟩
    | succ n ih =>
      rw [Function.iterate_succ_apply']
      have hyn : 1 ≤ ((fun st => updateFallbackMovement opts tg st
          { move := ⟨0, 0⟩, jump := j } 0)^[n] s).position.y := by
        rw [ih.1]
        exact hy
      have hstep := fallback_zero_step opts tg
        ((fun st => updateFallbackMovement opts tg st
          { move := ⟨0, 0⟩, jump := j } 0)^[n] s) j hyn
      exact ⟨hstep.1.trans ih.1, hstep.2.trans ih.2⟩
  · intro c j f v h1 h2 h3
    have hc1 := update_physics_ok opts tg h1 h2 h3 { move := ⟨0, 0⟩, jump := j } 0
    have h1b : (update opts tg c { move := ⟨0, 0⟩, jump := j } 0 f).usingFallback
        = false := by
      rw [hc1]
      exact h1
    have h2b : (update opts tg c { move := ⟨0, 0⟩, jump := j } 0 f).hasBody = true := by
      rw [hc1]
      exact h2
    have hc2 := update_physics_ok opts tg h1b h2b h3 { move := ⟨0, 0⟩, jump := j } 0
    refine ⟨?_, ?_, ?_⟩
    · rw [hc1]
    · rw [hc2, hc1]
    · rw [hc2]
      show (handleJumpStep opts (physicsPreMove opts tg _ _ _ 0 f v)
          { move := ⟨0, 0⟩, jump := j }).rotationY = _
      rw [handleJumpStep_rotationY, physicsPreMove_rotationY_zero]

/-- Witness for the amended C8: three zero-input fallback updates from the
initial state. -/
theorem idempotence_amended_witness :
    (1 ≤ (initialState : CharState).position.y)
    ∧ (((fun st => updateFallbackMovement defaultOptions axisTrig st
          { move := ⟨0, 0⟩, jump := false } 0)^[3] initialState).position
        = initialState.position
       ∧ ((fun st => updateFallbackMovement defaultOptions axisTrig st
          { move := ⟨0, 0⟩, jump := false } 0)^[3] initialState).rotationY
        = initialState.rotationY) :=
  ⟨by norm_num [initialState],
   (idempotence_amended defaultOptions axisTrig).1 initialState false 3
     (by norm_num [initialState])⟩



/-! ### Claim theorems: C4 -/
lemma updateRotation_rotationY_of_ne (opts : Options) (tg : Trig) (s : CharState)
    {m : Vec2} (hm : m.x ≠ 0 ∨ m.z ≠ 0) (dt : ℚ) :
    (updateRotation opts tg s m dt).rotationY
      = s.rotationY
        + wrappedDiff (tg.atan2 m.x m.z) (normalizeAngle s.rotationY)
            * opts.rotationSpeed * dt := by
  unfold updateRotation
  rw [if_pos hm]

/-- Claim C4 counterexample (claim corrected): the rotation step is
proportional smoothing, not clamped.  First part: from orientation 2 toward
target 0 (movement (0,1), atan2 equal 0) with rotationSpeed times dt equal
0.5, the single step moves the orientation by 1 radian, exceeding the
claimed bound rotationSpeed times dt.  Second part: from orientation -1
toward the same target with rotationSpeed times dt equal 1.5, at least the
angular distance 1, the step overshoots past the target: the new orientation
0.5 lies strictly beyond the target 0 coming from -1. -/
theorem rotation_step_exceeds_bound :
    ((updateRotation defaultOptions axisTrig { initialState with rotationY := 2 }
        ⟨0, 1⟩ (1/10)).rotationY = 1
      ∧ defaultOptions.rotationSpeed * (1/10) < |(1 : ℚ) - 2|)
    ∧ (atan2Axis 0 1 = 0
      ∧ |atan2Axis 0 1 - (-1 : ℚ)| ≤ defaultOptions.rotationSpeed * (3/10)
      ∧ (updateRotation defaultOptions axisTrig { initialState with rotationY := -1 }
          ⟨0, 1⟩ (3/10)).rotationY = 1/2
      ∧ (-1 : ℚ) < atan2Axis 0 1 ∧ atan2Axis 0 1 < 1/2) := by
  have hn2 : normalizeAngle 2 = 2 :=
    normalizeAngle_of_mem (by norm_num [mathPI]) (by norm_num [mathPI])
  have hn1 : normalizeAngle (-1) = -1 :=
    normalizeAngle_of_mem (by norm_num [mathPI]) (by norm_num [mathPI])
  have ha : atan2Axis 0 1 = 0 := by norm_num [atan2Axis]
  refine ⟨⟨?_, ?_⟩, ha, ?_, ?_, ?_, ?_⟩
  · rw [updateRotation_rotationY_of_ne defaultOptions axisTrig _ (by norm_num) (1/10)]
    show (2 : ℚ) + wrappedDiff (atan2Axis 0 1) (normalizeAngle 2)
        * defaultOptions.rotationSpeed * (1/10) = 1
    rw [ha, hn2]
    norm_num [wrappedDiff, mathPI, defaultOptions]
  · norm_num [defaultOptions]
  · rw [ha]
    norm_num [defaultOptions]
  · rw [updateRotation_rotationY_of_ne defaultOptions axisTrig _ (by norm_num) (3/10)]
    show (-1 : ℚ) + wrappedDiff (atan2Axis 0 1) (normalizeAngle (-1))
        * defaultOptions.rotationSpeed * (3/10) = 1/2
    rw [ha, hn1]
    norm_num [wrappedDiff, mathPI, defaultOptions]
  · rw [ha]
    norm_num
  · rw [ha]
    norm_num

/-- Claim C4 amended (corrected): one rotation update adds the wrapped
angular difference scaled by rotationSpeed times dt (clause 1); the step
magnitude is bounded by the angular distance, not by rotationSpeed times dt
(clause 2, valid when rotationSpeed times dt lies between 0 and 1); and
under that same condition the update moves toward the target representative
and never overshoots it (clauses 3 and 4). -/
theorem rotation_step_amended (opts : Options) (tg : Trig) (s : CharState)
    (m : Vec2) (dt : ℚ) (hm : m.x ≠ 0 ∨ m.z ≠ 0)
    (hk0 : 0 ≤ opts.rotationSpeed * dt) (hk1 : opts.rotationSpeed * dt ≤ 1) :
    (updateRotation opts tg s m dt).rotationY
        = s.rotationY
          + wrappedDiff (tg.atan2 m.x m.z) (normalizeAngle s.rotationY)
              * (opts.rotationSpeed * dt)
    ∧ |(updateRotation opts tg s m dt).rotationY - s.rotationY|
        ≤ |wrappedDiff (tg.atan2 m.x m.z) (normalizeAngle s.rotationY)|
    ∧ (0 ≤ wrappedDiff (tg.atan2 m.x m.z) (normalizeAngle s.rotationY) →
        s.rotationY ≤ (updateRotation opts tg s m dt).rotationY
        ∧ (updateRotation opts tg s m dt).rotationY
            ≤ s.rotationY + wrappedDiff (tg.atan2 m.x m.z) (normalizeAngle s.rotationY))
    ∧ (wrappedDiff (tg.atan2 m.x m.z) (normalizeAngle s.rotationY) ≤ 0 →
        s.rotationY + wrappedDiff (tg.atan2 m.x m.z) (normalizeAngle s.rotationY)
          ≤ (updateRotation opts tg s m dt).rotationY
        ∧ (updateRotation opts tg s m dt).rotationY ≤ s.rotationY) := by
  rw [updateRotation_rotationY_of_ne opts tg s hm dt]
  set k := opts.rotationSpeed * dt with hk
  set d := wrappedDiff (tg.atan2 m.x m.z) (normalizeAngle s.rotationY) with hd
  refine ⟨by ring, ?_, ?_, ?_⟩
  · have h1 : s.rotationY + d * opts.rotationSpeed * dt - s.rotationY
        = d * k := by rw [hk]; ring
    rw [h1, abs_mul]
    calc |d| * |k| ≤ |d| * 1 := by
          apply mul_le_mul_of_nonneg_left _ (abs_nonneg d)
          rw [abs_of_nonneg hk0]
          exact hk1
      _ = |d| := mul_one _
  · intro hdpos
    constructor
    · nlinarith
    · nlinarith
  · intro hdneg
    constructor
    · nlinarith
    · nlinarith

/-- Witness for the amended C4 at a concrete movement input and dt. -/
theorem rotation_step_amended_witness :
    (((⟨0, 1⟩ : Vec2).x ≠ 0 ∨ (⟨0, 1⟩ : Vec2).z ≠ 0)
      ∧ 0 ≤ defaultOptions.rotationSpeed * (1/10)
      ∧ defaultOptions.rotationSpeed * (1/10) ≤ 1)
    ∧ ((updateRotation defaultOptions axisTrig initialState ⟨0, 1⟩ (1/10)).rotationY
        = initialState.rotationY
          + wrappedDiff (axisTrig.atan2 (⟨0, 1⟩ : Vec2).x (⟨0, 1⟩ : Vec2).z)
              (normalizeAngle initialState.rotationY)
              * (defaultOptions.rotationSpeed * (1/10))
      ∧ |(updateRotation defaultOptions axisTrig initialState ⟨0, 1⟩ (1/10)).rotationY
          - initialState.rotationY|
        ≤ |wrappedDiff (axisTrig.atan2 (⟨0, 1⟩ : Vec2).x (⟨0, 1⟩ : Vec2).z)
            (normalizeAngle initialState.rotationY)|
      ∧ (0 ≤ wrappedDiff (axisTrig.atan2 (⟨0, 1⟩ : Vec2).x (⟨0, 1⟩ : Vec2).z)
            (normalizeAngle initialState.rotationY) →
          initialState.rotationY
            ≤ (updateRotation defaultOptions axisTrig initialState ⟨0, 1⟩ (1/10)).rotationY
          ∧ (updateRotation defaultOptions axisTrig initialState ⟨0, 1⟩ (1/10)).rotationY
            ≤ initialState.rotationY
              + wrappedDiff (axisTrig.atan2 (⟨0, 1⟩ : Vec2).x (⟨0, 1⟩ : Vec2).z)
                  (normalizeAngle initialState.rotationY))
      ∧ (wrappedDiff (axisTrig.atan2 (⟨0, 1⟩ : Vec2).x (⟨0, 1⟩ : Vec2).z)
            (normalizeAngle initialState.rotationY) ≤ 0 →
          initialState.rotationY
              + wrappedDiff (axisTrig.atan2 (⟨0, 1⟩ : Vec2).x (⟨0, 1⟩ : Vec2).z)
                  (normalizeAngle initialState.rotationY)
            ≤ (updateRotation defaultOptions axisTrig initialState ⟨0, 1⟩ (1/10)).rotationY
          ∧ (updateRotation defaultOptions axisTrig initialState ⟨0, 1⟩ (1/10)).rotationY
            ≤ initialState.rotationY)) :=
  ⟨⟨by norm_num, by norm_num [defaultOptions], by norm_num [defaultOptions]⟩,
   rotation_step_amended defaultOptions axisTrig initialState ⟨0, 1⟩ (1/10)
     (by norm_num) (by norm_num [defaultOptions]) (by norm_num [defaultOptions])⟩


end PhysChar
